import Mathlib

/-!
Shallow embedding of `packages/@aws-accelerator/accelerator/lib/stacks/key-stack.ts`:
the `KeyStack` construct (shared accelerator KMS key, its resource policy, the SSM
parameter publishing the key ARN, and the conditional cross-account SSM-parameter
access role) and the `SsmSessionManagerSettings` construct (session-manager logging
destinations, the agent IAM policy document, and the custom-resource registration).

CDK constructs are embedded as pure functions from the configuration (`props`) and
the enclosing stack's context (region / partition / account) to the ordered list of
resource declarations they produce.  Deploy-time CDK tokens (`key.keyArn`,
`key.keyId`) are embedded as symbolic reference strings built by `cdkTokenRef`.
-/

namespace KeyStackModel

/-- An IAM principal, mirroring the `cdk.aws_iam` principal classes used in the
source (`AccountPrincipal`, `ServicePrincipal`, `AccountRootPrincipal`,
`OrganizationPrincipal`, `CompositePrincipal`). -/
inductive Principal where
  | accountPrincipal (accountId : String)
  | servicePrincipal (service : String)
  | accountRootPrincipal
  | organizationPrincipal (organizationId : String)
  | compositePrincipal (principals : List Principal)

/-- One condition entry of a policy statement: condition operator (always `ArnLike`
in this source), condition key, and the list of values. -/
structure Condition where
  conditionOperator : String
  key : String
  values : List String
deriving DecidableEq

/-- A `cdk.aws_iam.PolicyStatement`.  Every statement in the source has effect
ALLOW (either explicitly or by CDK default), so the effect field is a constant
default. -/
structure PolicyStatement where
  sid : Option String := none
  effect : String := "Allow"
  principals : List Principal := []
  actions : List String
  resources : List String
  conditions : List Condition := []

/-- Stack context supplied by `cdk.Stack.of(this)` in the source. -/
structure StackContext where
  region : String
  partition : String
  account : String

/-- Symbolic embedding of a deploy-time CDK token such as `key.keyArn` or
`key.keyId` for the construct with the given logical id. -/
def cdkTokenRef (logicalId attr : String) : String :=
  "token(" ++ logicalId ++ "." ++ attr ++ ")"

/-- Properties carried by the `Custom::SsmSessionManagerSettings` custom resource
(source lines 403-410). -/
structure CustomResourceProps where
  s3BucketName : Option String
  s3KeyPrefix : Option String
  s3EncryptionEnabled : Bool
  cloudWatchLogGroupName : String
  cloudWatchEncryptionEnabled : Bool
  kmsKeyId : String

/-- A resource declaration emitted by one of the constructs.  Each constructor
carries the logical id given to the CDK construct and the properties the source
sets on it.  A KMS key's resource policy is the ordered list of statements passed
to `addToResourcePolicy`. -/
inductive Resource where
  | kmsKey (logicalId : String) (keyAlias : String) (description : String)
      (resourcePolicy : List PolicyStatement)
  | logGroup (logicalId : String) (logGroupName : String) (retentionDays : Nat)
      (encryptionKeyLogicalId : Option String)
  | stringParameter (logicalId : String) (parameterName : String) (stringValue : String)
  | managedPolicy (logicalId : String) (managedPolicyName : String)
      (document : List PolicyStatement)
  | iamRole (logicalId : String) (roleName : String) (assumedBy : Principal)
      (managedPolicyNames : List String) (inlineStatements : List PolicyStatement)
  | instanceProfile (logicalId : String) (instanceProfileName : String) (roles : List String)
  | customResource (logicalId : String) (resourceType : String)
      (properties : CustomResourceProps)

/-! ### KeyStack (source lines 21-155) -/

/-- One entry of `props.accountsConfig.accountIds`. -/
structure AccountIdItem where
  accountId : String

/-- The slice of `AcceleratorStackProps` that `KeyStack` reads.  The optional
chaining `props?.accountsConfig?.accountIds` is collapsed into one optional
list. -/
structure KeyStackProps where
  organizationEnable : Bool
  macieEnable : Bool
  guarddutyEnable : Bool
  accountIds : Option (List AccountIdItem)
  partition : String
  homeRegion : String

/-- Source lines 41-53: the statement allowing accelerator roles of the configured
accounts to use the encryption key (added only when organization mode is on). -/
def acceleratorRoleStatement (ctx : StackContext) (props : KeyStackProps) : PolicyStatement :=
  { sid := some "Allow Accelerator Role to use the encryption key",
    principals :=
      (Option.map (List.map (fun item => Principal.accountPrincipal item.accountId))
        props.accountIds).getD [],
    actions := ["kms:Encrypt", "kms:Decrypt", "kms:ReEncrypt*", "kms:GenerateDataKey*",
      "kms:DescribeKey"],
    resources := ["*"],
    conditions := [⟨"ArnLike", "aws:PrincipalARN",
      ["arn:" ++ ctx.partition ++ ":iam::*:role/AWSAccelerator-*"]⟩] }

/-- Source lines 57-64: the statement allowing CloudWatch Logs to use the key. -/
def cloudwatchLogsKeyStatement : PolicyStatement :=
  { sid := some "Allow Cloudwatch logs to use the encryption key",
    principals := [Principal.servicePrincipal "logs.amazonaws.com.cn"],
    actions := ["kms:Encrypt*", "kms:Decrypt*", "kms:ReEncrypt*", "kms:GenerateDataKey*",
      "kms:Describe*"],
    resources := ["*"] }

/-- One entry of the `allowedServicePrincipals` array (source lines 67-72). -/
structure ServicePrincipalEntry where
  name : String
  principal : String

/-- Source lines 67-78: the list of service principals allowed to use the key.
`Sns`, `Lambda` and `Cloudwatch` are always present; `Macie` and `Guardduty` are
appended when their respective enable flags are set. -/
def allowedServicePrincipals (macieEnable guarddutyEnable : Bool) : List ServicePrincipalEntry :=
  [⟨"Sns", "sns.amazonaws.com"⟩, ⟨"Lambda", "lambda.amazonaws.com"⟩,
    ⟨"Cloudwatch", "cloudwatch.amazonaws.com"⟩]
  ++ (if macieEnable then [⟨"Macie", "macie.amazonaws.com"⟩] else [])
  ++ (if guarddutyEnable then [⟨"Guardduty", "guardduty.amazonaws.com"⟩] else [])

/-- Source lines 80-89: the per-service-principal statement added to the key's
resource policy for each entry of `allowedServicePrincipals`. -/
def servicePrincipalStatement (entry : ServicePrincipalEntry) : PolicyStatement :=
  { sid := some ("Allow " ++ entry.name ++ " service to use the encryption key"),
    principals := [Principal.servicePrincipal entry.principal],
    actions := ["kms:Encrypt", "kms:Decrypt", "kms:ReEncrypt*", "kms:GenerateDataKey*",
      "kms:DescribeKey"],
    resources := ["*"] }

/-- Source lines 110-124: first inline statement of the cross-account role. -/
def ssmGetParameterStatement (ctx : StackContext) : PolicyStatement :=
  { actions := ["ssm:GetParameters", "ssm:GetParameter"],
    resources := ["arn:" ++ ctx.partition ++ ":ssm:*:" ++ ctx.account
      ++ ":parameter/accelerator/kms/key-arn"],
    conditions := [⟨"ArnLike", "aws:PrincipalARN",
      ["arn:" ++ ctx.partition ++ ":iam::*:role/AWSAccelerator-*"]⟩] }

/-- Source lines 125-134: second inline statement of the cross-account role. -/
def ssmDescribeParametersStatement (ctx : StackContext) : PolicyStatement :=
  { actions := ["ssm:DescribeParameters"],
    resources := ["*"],
    conditions := [⟨"ArnLike", "aws:PrincipalARN",
      ["arn:" ++ ctx.partition ++ ":iam::*:role/AWSAccelerator-*"]⟩] }

/-- The cross-account role declaration (source lines 105-138). -/
structure CrossAccountRole where
  roleName : String
  assumedBy : Principal
  inlineStatements : List PolicyStatement

/-- Source line 22. -/
def crossAccountAccessRoleName : String := "AWSAccelerator-CrossAccount-SsmParameter-Role"

/-- What the `KeyStack` constructor produces. -/
structure KeyStackOutput where
  /-- Resource policy of the `AcceleratorKey` KMS key, in `addToResourcePolicy`
  order. -/
  keyPolicy : List PolicyStatement
  /-- The `/accelerator/kms/key-arn` SSM parameter (name, value). -/
  kmsArnParameter : String × String
  /-- The cross-account SSM-parameter access role, when created. -/
  crossAccountRole : Option CrossAccountRole

/-- Source lines 98-102: `accountPrincipals`, built from
`props?.accountsConfig?.accountIds ?? []`. -/
def accountPrincipals (props : KeyStackProps) : List Principal :=
  ((props.accountIds).getD []).map (fun item => Principal.accountPrincipal item.accountId)

/-- The `KeyStack` constructor (source lines 25-154).  `orgLookupId` stands for
the id returned by the `Organization` construct lookup; line 30 uses it only when
organization mode is enabled. -/
def keyStack (ctx : StackContext) (orgLookupId : String) (props : KeyStackProps) :
    KeyStackOutput :=
  let organizationId := if props.organizationEnable then orgLookupId else ""
  let keyPolicy :=
    (if props.organizationEnable then [acceleratorRoleStatement ctx props] else [])
    ++ [cloudwatchLogsKeyStatement]
    ++ (allowedServicePrincipals props.macieEnable props.guarddutyEnable).map
        servicePrincipalStatement
  let crossAccountRole :=
    if ctx.region == props.homeRegion && props.organizationEnable then
      some { roleName := crossAccountAccessRoleName,
             assumedBy :=
               if props.partition == "aws-cn" && (props.accountIds).isSome then
                 Principal.compositePrincipal (accountPrincipals props)
               else
                 Principal.organizationPrincipal organizationId,
             inlineStatements := [ssmGetParameterStatement ctx,
               ssmDescribeParametersStatement ctx] }
    else none
  { keyPolicy := keyPolicy,
    kmsArnParameter := ("/accelerator/kms/key-arn", cdkTokenRef "AcceleratorKey" "keyArn"),
    crossAccountRole := crossAccountRole }

/-! ### SsmSessionManagerSettings (source lines 177-429) -/

/-- `SsmSessionManagerSettingsProps` (source lines 177-192).  The handler
log-group's encryption key and the custom-resource provider are stack-level
collaborators; the fields this model needs are the configuration flags, the S3
strings and the retention days. -/
structure SsmSessionManagerSettingsProps where
  s3BucketName : Option String
  s3KeyPrefix : Option String
  s3BucketKeyArn : Option String
  sendToS3 : Bool
  sendToCloudWatchLogs : Bool
  cloudWatchEncryptionEnabled : Bool
  logRetentionInDays : Nat

/-- JavaScript truthiness of an optional string, as the source relies on it in
`!props.s3BucketKeyArn || !props.s3BucketName` (line 281) and
`props.s3KeyPrefix ? ... : ...` (line 291): `undefined` and the empty string
are falsy. -/
def truthy : Option String → Bool
  | none => false
  | some s => !(s == "")

/-- Source lines 200-214: the base statement of the agent policy document
(messaging channels and instance information). -/
def sessionManagerBaseStatement : PolicyStatement :=
  { actions := ["ssmmessages:CreateControlChannel", "ssmmessages:CreateDataChannel",
      "ssmmessages:OpenControlChannel", "ssmmessages:OpenDataChannel",
      "ssm:UpdateInstanceInformation"],
    resources := ["*"] }

/-- Source lines 224-231 and 316-323: the root-account grant added to each of the
two dedicated CMKs. -/
def enableIamUserPermissionsStatement : PolicyStatement :=
  { sid := some "Enable IAM User Permissions",
    principals := [Principal.accountRootPrincipal],
    actions := ["kms:*"],
    resources := ["*"] }

/-- Source lines 233-247 and 325-339: the CloudWatch-Logs-service grant added to
each of the two dedicated CMKs. -/
def allowCloudWatchLogsAccessStatement (ctx : StackContext) : PolicyStatement :=
  { sid := some "Allow Cloud Watch Logs access",
    principals := [Principal.servicePrincipal ("logs." ++ ctx.region ++ ".amazonaws.com.cn")],
    actions := ["kms:Encrypt*", "kms:Decrypt*", "kms:ReEncrypt*", "kms:GenerateDataKey*",
      "kms:Describe*"],
    resources := ["*"],
    conditions := [⟨"ArnLike", "kms:EncryptionContext:aws:logs:arn",
      ["arn:" ++ ctx.partition ++ ":logs:" ++ ctx.region ++ ":" ++ ctx.account ++ ":*"]⟩] }

/-- Source line 249. -/
def sessionManagerLogGroupFixedName : String := "aws-accelerator-session-manager-logs"

/-- Source lines 259-267: the `logs:DescribeLogGroups` statement added to the
agent policy when the CloudWatch destination is enabled.  Its resource is the
account-wide `log-group:*` ARN. -/
def describeLogGroupsStatement (ctx : StackContext) : PolicyStatement :=
  { actions := ["logs:DescribeLogGroups"],
    resources := ["arn:" ++ ctx.partition ++ ":logs:" ++ ctx.region ++ ":" ++ ctx.account
      ++ ":log-group:*"] }

/-- Source lines 268-276: the log-stream creation / log-writing statement added
to the agent policy when the CloudWatch destination is enabled, scoped to the
session-manager log group. -/
def writeSessionManagerLogGroupStatement (ctx : StackContext) : PolicyStatement :=
  { actions := ["logs:CreateLogStream", "logs:PutLogEvents", "logs:DescribeLogStreams"],
    resources := ["arn:" ++ ctx.partition ++ ":logs:" ++ ctx.region ++ ":" ++ ctx.account
      ++ ":log-group:" ++ sessionManagerLogGroupFixedName ++ ":*"] }

/-- Source lines 286-294: the S3 object-write statement.  The template
`${props.s3BucketName}/${props.s3KeyPrefix ? props.s3KeyPrefix + '/*' : '*'}`
appends `<s3KeyPrefix>/*` when the prefix string is truthy and `*` otherwise. -/
def s3PutObjectStatement (ctx : StackContext) (props : SsmSessionManagerSettingsProps) :
    PolicyStatement :=
  { actions := ["s3:PutObject", "s3:PutObjectAcl"],
    resources := ["arn:" ++ ctx.partition ++ ":s3:::" ++ (props.s3BucketName).getD "" ++ "/"
      ++ (if truthy props.s3KeyPrefix then (props.s3KeyPrefix).getD "" ++ "/*" else "*")] }

/-- Source lines 295-299: the `s3:GetEncryptionConfiguration` statement, scoped
to the bucket. -/
def s3GetEncryptionConfigurationStatement (ctx : StackContext)
    (props : SsmSessionManagerSettingsProps) : PolicyStatement :=
  { actions := ["s3:GetEncryptionConfiguration"],
    resources := ["arn:" ++ ctx.partition ++ ":s3:::" ++ (props.s3BucketName).getD ""] }

/-- Source lines 300-304: key use scoped to the given bucket key ARN. -/
def s3KeyUseStatement (props : SsmSessionManagerSettingsProps) : PolicyStatement :=
  { actions := ["kms:Decrypt", "kms:GenerateDataKey"],
    resources := [(props.s3BucketKeyArn).getD ""] }

/-- Source lines 342-348: the decrypt statement scoped to the session CMK's key
ARN, always added to the agent policy. -/
def sessionKeyDecryptStatement : PolicyStatement :=
  { actions := ["kms:Decrypt"],
    resources := [cdkTokenRef "SessionManagerSessionCmk" "keyArn"] }

/-- Source lines 369-377: the statement of the user-facing KMS policy. -/
def sessionManagerUserKmsStatement : PolicyStatement :=
  { actions := ["kms:Decrypt", "kms:GenerateDataKey"],
    resources := [cdkTokenRef "SessionManagerSessionCmk" "keyArn"] }

/-- What a completed `SsmSessionManagerSettings` constructor produces. -/
structure SsmOutput where
  /-- The per-instance resource declarations, in source order.  (The custom
  resource provider and the handler log group are stack-level singletons,
  modelled separately by `getOrCreateHandlerLogGroup`.) -/
  resources : List Resource
  /-- The final statements of `sessionManagerEC2PolicyDocument`. -/
  policyDocument : List PolicyStatement
  /-- The properties of the `Custom::SsmSessionManagerSettings` custom
  resource. -/
  customProps : CustomResourceProps

/-- Outcome of running the `SsmSessionManagerSettings` constructor: either it
completes, or it throws (source line 282), in which case the construct tree
already holds the resource declarations made before the throw. -/
inductive SsmResult where
  | ok (output : SsmOutput)
  | error (message : String) (resourcesBeforeError : List Resource)

/-- The CloudWatch logs CMK declared at source lines 218-247, with its two
`addToResourcePolicy` statements. -/
def sessionManagerLogsCmkResource (ctx : StackContext) : Resource :=
  Resource.kmsKey "SessionManagerLogsCmk" "accelerator/session-manager-logging/cloud-watch-logs"
    "AWS Accelerator Cloud Watch Logs CMK for Session Manager Logs"
    [enableIamUserPermissionsStatement, allowCloudWatchLogsAccessStatement ctx]

/-- The session-manager log group declared at source lines 250-254
(`RetentionDays.TEN_YEARS = 3653`). -/
def sessionManagerLogGroupResource : Resource :=
  Resource.logGroup "sessionManagerLogGroup" sessionManagerLogGroupFixedName 3653
    (some "SessionManagerLogsCmk")

/-- The session CMK declared at source lines 310-339, with its two
`addToResourcePolicy` statements. -/
def sessionManagerSessionCmkResource (ctx : StackContext) : Resource :=
  Resource.kmsKey "SessionManagerSessionCmk" "accelerator/session-manager-logging/session"
    "AWS Accelerator Cloud Watch Logs CMK for Session Manager Logs"
    [enableIamUserPermissionsStatement, allowCloudWatchLogsAccessStatement ctx]

/-- The `SsmSessionManagerSettings` constructor (source lines 197-429), as a
function from the stack context and the props to the declarations it makes.
It follows the source's order: the base policy document, the CloudWatch branch
(CMK, log group, two added statements), the S3 validation and branch (three
added statements), the session CMK and its decrypt statement, then the managed
policies, role, instance profile and custom resource. -/
def ssmSessionManagerSettings (ctx : StackContext) (props : SsmSessionManagerSettingsProps) :
    SsmResult :=
  let doc0 := [sessionManagerBaseStatement]
  let cwResources :=
    if props.sendToCloudWatchLogs then
      [sessionManagerLogsCmkResource ctx, sessionManagerLogGroupResource]
    else []
  let sessionManagerLogGroupName :=
    if props.sendToCloudWatchLogs then sessionManagerLogGroupFixedName else ""
  let doc1 :=
    if props.sendToCloudWatchLogs then
      doc0 ++ [describeLogGroupsStatement ctx, writeSessionManagerLogGroupStatement ctx]
    else doc0
  if props.sendToS3 && (!(truthy props.s3BucketKeyArn) || !(truthy props.s3BucketName)) then
    SsmResult.error "Bucket Key Arn and Bucket Name must be provided" cwResources
  else
    let doc2 :=
      if props.sendToS3 then
        doc1 ++ [s3PutObjectStatement ctx props,
          s3GetEncryptionConfigurationStatement ctx props, s3KeyUseStatement props]
      else doc1
    let doc3 := doc2 ++ [sessionKeyDecryptStatement]
    let cp : CustomResourceProps :=
      { s3BucketName := props.s3BucketName,
        s3KeyPrefix := props.s3KeyPrefix,
        s3EncryptionEnabled := props.sendToS3,
        cloudWatchLogGroupName := sessionManagerLogGroupName,
        cloudWatchEncryptionEnabled := props.cloudWatchEncryptionEnabled,
        kmsKeyId := cdkTokenRef "SessionManagerSessionCmk" "keyId" }
    SsmResult.ok
      { resources := cwResources ++
          [sessionManagerSessionCmkResource ctx,
            Resource.managedPolicy "SessionManagerEC2Policy"
              ("SessionManagerLogging-" ++ ctx.region) doc3,
            Resource.iamRole "SessionManagerEC2Role" ("SessionManagerEC2Role-" ++ ctx.region)
              (Principal.servicePrincipal "ec2.amazonaws.com.cn")
              ["SessionManagerLogging-" ++ ctx.region] [],
            Resource.instanceProfile "SessionManagerEC2InstanceProfile"
              ("SessionManagerEc2Role-" ++ ctx.region) ["SessionManagerEC2Role-" ++ ctx.region],
            Resource.managedPolicy "SessionManagerUserKMSPolicy"
              ("SessionManagerUserKMSPolicy-" ++ ctx.region) [sessionManagerUserKmsStatement],
            Resource.customResource "Resource" "Custom::SsmSessionManagerSettings" cp],
        policyDocument := doc3,
        customProps := cp }

/-! ### Stack-level singleton handler log group (source lines 413-426) -/

/-- `stack.node.tryFindChild(id)` over the stack's construct children, embedded
as an association list in declaration order. -/
def tryFindChild (stackChildren : List (String × Resource)) (childId : String) :
    Option Resource :=
  Option.map Prod.snd (List.find? (fun c => c.1 == childId) stackChildren)

/-- Source lines 418-425: `stack.node.tryFindChild(id) ?? new LogGroup(stack, id, ...)` —
look up the handler log group under its fixed derived id before declaring a new
one; a new declaration is appended to the stack's children. -/
def getOrCreateHandlerLogGroup (stackChildren : List (String × Resource)) (childId : String)
    (newLogGroup : Resource) : Resource × List (String × Resource) :=
  match tryFindChild stackChildren childId with
  | some existing => (existing, stackChildren)
  | none => (newLogGroup, stackChildren ++ [(childId, newLogGroup)])

/-! ### Helper accessors used by the theorems -/

/-- The error message of a failed assembly, `none` on success. -/
def SsmResult.errorMessage : SsmResult → Option String
  | SsmResult.ok _ => none
  | SsmResult.error m _ => some m

/-- The resource declarations that exist at the moment a failed assembly throws
(empty for a completed assembly). -/
def SsmResult.resourcesAtError : SsmResult → List Resource
  | SsmResult.ok _ => []
  | SsmResult.error _ rs => rs

/-- The agent policy document of a completed assembly. -/
def SsmResult.policyDoc : SsmResult → List PolicyStatement
  | SsmResult.ok o => o.policyDocument
  | SsmResult.error _ _ => []

/-- Whether a resource declaration is the dedicated session-data CMK (logical id
`SessionManagerSessionCmk`). -/
def isSessionCmk : Resource → Bool
  | Resource.kmsKey logicalId _ _ _ => logicalId == "SessionManagerSessionCmk"
  | _ => false

/-- The resource declarations of a completed assembly (empty for a failed
one). -/
def SsmResult.okResources : SsmResult → List Resource
  | SsmResult.ok o => o.resources
  | SsmResult.error _ _ => []

/-- The custom-resource properties carried by a resource declaration, when it is
a custom resource. -/
def customResourceProperties : Resource → Option CustomResourceProps
  | Resource.customResource _ _ cp => some cp
  | _ => none

/-- The properties of every custom resource registered by a completed
assembly. -/
def registeredCustomResourceProps (res : SsmResult) : List CustomResourceProps :=
  List.filterMap customResourceProperties (SsmResult.okResources res)

/-! ### Concrete sample inputs used by witnesses and counterexamples -/

/-- A sample stack context in the China partition. -/
def sampleCtx : StackContext := ⟨"cn-north-1", "aws-cn", "111122223333"⟩

/-- A `KeyStackProps` with organization mode on, home region matching
`sampleCtx`, and two configured accounts. -/
def sampleKeyProps : KeyStackProps :=
  { organizationEnable := true, macieEnable := true, guarddutyEnable := false,
    accountIds := some [⟨"111111111111"⟩, ⟨"222222222222"⟩],
    partition := "aws-cn", homeRegion := "cn-north-1" }

/-- A `KeyStackProps` with organization mode off. -/
def sampleKeyPropsNoOrg : KeyStackProps :=
  { organizationEnable := false, macieEnable := false, guarddutyEnable := true,
    accountIds := none, partition := "aws-cn", homeRegion := "cn-north-1" }

/-- Session-manager props requesting the S3 destination without a bucket name,
with the CloudWatch destination also enabled. -/
def missingBucketProps : SsmSessionManagerSettingsProps :=
  { s3BucketName := none, s3KeyPrefix := none,
    s3BucketKeyArn := some "arn:aws-cn:kms:cn-north-1:111122223333:key/abcd",
    sendToS3 := true, sendToCloudWatchLogs := true,
    cloudWatchEncryptionEnabled := true, logRetentionInDays := 365 }

/-- Session-manager props with both destinations enabled and a full S3
configuration. -/
def bothDestinationsProps : SsmSessionManagerSettingsProps :=
  { s3BucketName := some "central-logs", s3KeyPrefix := some "session",
    s3BucketKeyArn := some "arn:aws-cn:kms:cn-north-1:111122223333:key/abcd",
    sendToS3 := true, sendToCloudWatchLogs := true,
    cloudWatchEncryptionEnabled := true, logRetentionInDays := 365 }

/-- Session-manager props with no destination enabled. -/
def noDestinationProps : SsmSessionManagerSettingsProps :=
  { s3BucketName := none, s3KeyPrefix := none, s3BucketKeyArn := none,
    sendToS3 := false, sendToCloudWatchLogs := false,
    cloudWatchEncryptionEnabled := false, logRetentionInDays := 365 }

/-- Session-manager props with only the CloudWatch destination enabled. -/
def cloudWatchOnlyProps : SsmSessionManagerSettingsProps :=
  { s3BucketName := none, s3KeyPrefix := none, s3BucketKeyArn := none,
    sendToS3 := false, sendToCloudWatchLogs := true,
    cloudWatchEncryptionEnabled := true, logRetentionInDays := 365 }

/-! ## Theorems -/

/-- C2: when the cross-account SSM-parameter-access role is created (current
region equals the home region and organization mode is enabled), its trust
principal is the composite of the configured account principals exactly when the
partition is `aws-cn` and an account-id list is present, and the organization
principal in every other case. -/
theorem crossAccountRole_trust_principal (ctx : StackContext) (orgLookupId : String)
    (props : KeyStackProps) (hhome : ctx.region = props.homeRegion)
    (horg : props.organizationEnable = true) :
    Option.map CrossAccountRole.assumedBy (keyStack ctx orgLookupId props).crossAccountRole =
      some (if props.partition = "aws-cn" ∧ (props.accountIds).isSome then
              Principal.compositePrincipal (accountPrincipals props)
            else
              Principal.organizationPrincipal orgLookupId) := by
  by_cases h : props.partition = "aws-cn" ∧ (props.accountIds).isSome
  · simp [keyStack, hhome, horg, h]
  · have hb : (props.partition == "aws-cn" && (props.accountIds).isSome) = false := by
      cases hp : props.partition == "aws-cn" with
      | false => simp
      | true =>
        have hpe : props.partition = "aws-cn" := by simpa using hp
        have hs : (props.accountIds).isSome = false := by
          cases hq : (props.accountIds).isSome
          · rfl
          · exact absurd ⟨hpe, hq⟩ h
        simp [hs]
    simp [keyStack, hhome, horg, hb, if_neg h]

/-- C2 witness: with partition `aws-cn` and account ids `[111111111111,
222222222222]`, the trust principal is the composite of the two account
principals. -/
theorem crossAccountRole_trust_principal_witness :
    Option.map CrossAccountRole.assumedBy
        (keyStack sampleCtx "o-a1b2c3" sampleKeyProps).crossAccountRole =
      some (Principal.compositePrincipal [Principal.accountPrincipal "111111111111",
        Principal.accountPrincipal "222222222222"]) := by
  have h := crossAccountRole_trust_principal sampleCtx "o-a1b2c3" sampleKeyProps rfl rfl
  simpa [sampleKeyProps, accountPrincipals] using h

/-- C3: with organization mode disabled, the key provisioner creates no
cross-account role, and no statement of the key's resource policy names an
account principal or an organization principal (every statement's principals are
service principals only), regardless of region, partition, or account-id
list. -/
theorem no_org_no_crossAccountRole_no_account_principals (ctx : StackContext)
    (orgLookupId : String) (props : KeyStackProps)
    (horg : props.organizationEnable = false) :
    (keyStack ctx orgLookupId props).crossAccountRole = none ∧
    ∀ s ∈ (keyStack ctx orgLookupId props).keyPolicy, ∀ p ∈ s.principals,
      (∀ a, p ≠ Principal.accountPrincipal a) ∧
      (∀ o, p ≠ Principal.organizationPrincipal o) := by
  cases hm : props.macieEnable <;> cases hg : props.guarddutyEnable <;>
    simp [keyStack, horg, hm, hg, allowedServicePrincipals, servicePrincipalStatement,
      cloudwatchLogsKeyStatement]

/-- C3 witness: the concrete organization-disabled configuration. -/
theorem no_org_no_crossAccountRole_no_account_principals_witness :
    (keyStack sampleCtx "o-a1b2c3" sampleKeyPropsNoOrg).crossAccountRole = none ∧
    ∀ s ∈ (keyStack sampleCtx "o-a1b2c3" sampleKeyPropsNoOrg).keyPolicy, ∀ p ∈ s.principals,
      (∀ a, p ≠ Principal.accountPrincipal a) ∧
      (∀ o, p ≠ Principal.organizationPrincipal o) :=
  no_org_no_crossAccountRole_no_account_principals sampleCtx "o-a1b2c3" sampleKeyPropsNoOrg rfl

/-- C8: the key's resource policy grants encrypt/decrypt to the Sns, Lambda and
Cloudwatch service principals unconditionally, contains the Macie statement if
and only if the Macie enable flag is set, and contains the Guardduty statement
if and only if the Guardduty enable flag is set. -/
theorem keyPolicy_service_principals (ctx : StackContext) (orgLookupId : String)
    (props : KeyStackProps) :
    servicePrincipalStatement ⟨"Sns", "sns.amazonaws.com"⟩
        ∈ (keyStack ctx orgLookupId props).keyPolicy ∧
    servicePrincipalStatement ⟨"Lambda", "lambda.amazonaws.com"⟩
        ∈ (keyStack ctx orgLookupId props).keyPolicy ∧
    servicePrincipalStatement ⟨"Cloudwatch", "cloudwatch.amazonaws.com"⟩
        ∈ (keyStack ctx orgLookupId props).keyPolicy ∧
    (servicePrincipalStatement ⟨"Macie", "macie.amazonaws.com"⟩
        ∈ (keyStack ctx orgLookupId props).keyPolicy ↔ props.macieEnable = true) ∧
    (servicePrincipalStatement ⟨"Guardduty", "guardduty.amazonaws.com"⟩
        ∈ (keyStack ctx orgLookupId props).keyPolicy ↔ props.guarddutyEnable = true) := by
  cases ho : props.organizationEnable <;> cases hm : props.macieEnable <;>
    cases hg : props.guarddutyEnable <;>
    simp [keyStack, ho, hm, hg, allowedServicePrincipals, servicePrincipalStatement,
      cloudwatchLogsKeyStatement, acceleratorRoleStatement]

/-- C7: requesting the handler log group a second time in the same deployment
scope yields the very resource of the first request and leaves the scope's
children unchanged — the lookup-or-create is idempotent under the fixed derived
name. -/
theorem getOrCreateHandlerLogGroup_idempotent (stackChildren : List (String × Resource))
    (childId : String) (lg1 lg2 : Resource) :
    getOrCreateHandlerLogGroup (getOrCreateHandlerLogGroup stackChildren childId lg1).2
        childId lg2 =
      ((getOrCreateHandlerLogGroup stackChildren childId lg1).1,
       (getOrCreateHandlerLogGroup stackChildren childId lg1).2) := by
  unfold getOrCreateHandlerLogGroup tryFindChild
  cases h : List.find? (fun c => c.1 == childId) stackChildren with
  | some r => simp [h]
  | none => simp [h, List.find?_append]

/-- C1 counterexample: with `sendToS3 = true`, a missing bucket name and
`sendToCloudWatchLogs = true`, assembly fails with the validation error, but the
CloudWatch logs CMK and the session-manager log group are already declared at
the moment the error is raised — so it is not the case that no key or log group
declaration exists. -/
theorem s3_validation_error_not_before_cw_resources :
    (ssmSessionManagerSettings sampleCtx missingBucketProps).errorMessage =
      some "Bucket Key Arn and Bucket Name must be provided" ∧
    (ssmSessionManagerSettings sampleCtx missingBucketProps).resourcesAtError =
      [sessionManagerLogsCmkResource sampleCtx, sessionManagerLogGroupResource] :=
  ⟨rfl, rfl⟩

/-- C1 (amended): with `sendToS3 = true` and a missing (or empty) bucket key ARN
or bucket name, assembly fails synchronously with the validation error before
the session key, the policies, the role, the instance profile or the custom
resource are declared; when `sendToCloudWatchLogs = false` no resource at all
exists when the error is raised, but when `sendToCloudWatchLogs = true` the
CloudWatch logs CMK and the session-manager log group have already been
declared. -/
theorem s3_validation_error_resources (ctx : StackContext)
    (props : SsmSessionManagerSettingsProps) (hs3 : props.sendToS3 = true)
    (hmiss : truthy props.s3BucketKeyArn = false ∨ truthy props.s3BucketName = false) :
    ssmSessionManagerSettings ctx props =
      SsmResult.error "Bucket Key Arn and Bucket Name must be provided"
        (if props.sendToCloudWatchLogs then
           [sessionManagerLogsCmkResource ctx, sessionManagerLogGroupResource]
         else []) := by
  unfold ssmSessionManagerSettings
  rcases hmiss with h | h <;> simp [hs3, h]

/-- C1 witness: the amended theorem evaluated at the concrete failing
configuration. -/
theorem s3_validation_error_resources_witness :
    ssmSessionManagerSettings sampleCtx missingBucketProps =
      SsmResult.error "Bucket Key Arn and Bucket Name must be provided"
        [sessionManagerLogsCmkResource sampleCtx, sessionManagerLogGroupResource] := by
  have h := s3_validation_error_resources sampleCtx missingBucketProps rfl (Or.inr rfl)
  simpa [missingBucketProps] using h

/-- C4: every assembly that completes declares the dedicated session-data CMK
exactly once — with the root-account grant and the logging-service grant on its
resource policy — and the agent policy document contains the decrypt statement
scoped to that key, regardless of the values of `sendToS3` and
`sendToCloudWatchLogs`. -/
theorem session_cmk_created_exactly_once (ctx : StackContext)
    (props : SsmSessionManagerSettingsProps)
    (hok : (ssmSessionManagerSettings ctx props).errorMessage = none) :
    List.filter isSessionCmk (SsmResult.okResources (ssmSessionManagerSettings ctx props)) =
      [sessionManagerSessionCmkResource ctx] ∧
    sessionKeyDecryptStatement ∈ SsmResult.policyDoc (ssmSessionManagerSettings ctx props) := by
  unfold ssmSessionManagerSettings at hok ⊢
  cases herr : (props.sendToS3 && (!(truthy props.s3BucketKeyArn)
      || !(truthy props.s3BucketName))) with
  | true =>
    rw [herr] at hok
    simp [SsmResult.errorMessage] at hok
  | false =>
    cases hcw : props.sendToCloudWatchLogs <;>
      simp [hcw, SsmResult.okResources, SsmResult.policyDoc, List.filter, isSessionCmk,
        sessionManagerSessionCmkResource, sessionManagerLogsCmkResource,
        sessionManagerLogGroupResource]

/-- C4 witness: the concrete no-destination configuration completes and the
session CMK is declared exactly once. -/
theorem session_cmk_created_exactly_once_witness :
    List.filter isSessionCmk
        (SsmResult.okResources (ssmSessionManagerSettings sampleCtx noDestinationProps)) =
      [sessionManagerSessionCmkResource sampleCtx] ∧
    sessionKeyDecryptStatement ∈
      SsmResult.policyDoc (ssmSessionManagerSettings sampleCtx noDestinationProps) :=
  session_cmk_created_exactly_once sampleCtx noDestinationProps rfl

/-- The agent policy document of a completed assembly has one base statement and
one session-key statement, plus two statements when the CloudWatch destination
is enabled and three when the S3 destination is enabled. -/
theorem policyDoc_length_eq (ctx : StackContext) (props : SsmSessionManagerSettingsProps)
    (hok : (ssmSessionManagerSettings ctx props).errorMessage = none) :
    (SsmResult.policyDoc (ssmSessionManagerSettings ctx props)).length =
      2 + (if props.sendToCloudWatchLogs then 2 else 0)
        + (if props.sendToS3 then 3 else 0) := by
  unfold ssmSessionManagerSettings at hok ⊢
  cases herr : (props.sendToS3 && (!(truthy props.s3BucketKeyArn)
      || !(truthy props.s3BucketName))) with
  | true =>
    rw [herr] at hok
    simp [SsmResult.errorMessage] at hok
  | false =>
    cases hcw : props.sendToCloudWatchLogs <;> cases hs3 : props.sendToS3 <;>
      simp [hcw, hs3, SsmResult.policyDoc]

/-- C5: for two configurations that complete assembly, if the enabled
destinations of the first are a subset of those of the second, the first agent
policy document has at most as many statements as the second; each count is the
two fixed statements (base and session key) plus one block of 2 statements for
the CloudWatch destination and one block of 3 statements for the S3 destination,
one block per enabled destination. -/
theorem policyDoc_length_monotone (ctx₁ ctx₂ : StackContext)
    (props₁ props₂ : SsmSessionManagerSettingsProps)
    (h₁ : (ssmSessionManagerSettings ctx₁ props₁).errorMessage = none)
    (h₂ : (ssmSessionManagerSettings ctx₂ props₂).errorMessage = none)
    (hs3 : props₁.sendToS3 = true → props₂.sendToS3 = true)
    (hcw : props₁.sendToCloudWatchLogs = true → props₂.sendToCloudWatchLogs = true) :
    (SsmResult.policyDoc (ssmSessionManagerSettings ctx₁ props₁)).length ≤
      (SsmResult.policyDoc (ssmSessionManagerSettings ctx₂ props₂)).length ∧
    (SsmResult.policyDoc (ssmSessionManagerSettings ctx₁ props₁)).length =
      2 + (if props₁.sendToCloudWatchLogs then 2 else 0)
        + (if props₁.sendToS3 then 3 else 0) ∧
    (SsmResult.policyDoc (ssmSessionManagerSettings ctx₂ props₂)).length =
      2 + (if props₂.sendToCloudWatchLogs then 2 else 0)
        + (if props₂.sendToS3 then 3 else 0) := by
  have e₁ := policyDoc_length_eq ctx₁ props₁ h₁
  have e₂ := policyDoc_length_eq ctx₂ props₂ h₂
  refine ⟨?_, e₁, e₂⟩
  rw [e₁, e₂]
  cases ha : props₁.sendToCloudWatchLogs <;> cases hb : props₁.sendToS3 <;>
    simp_all
  all_goals omega

/-- C5 witness: the no-destination configuration against the both-destination
configuration. -/
theorem policyDoc_length_monotone_witness :
    (SsmResult.policyDoc (ssmSessionManagerSettings sampleCtx noDestinationProps)).length ≤
      (SsmResult.policyDoc (ssmSessionManagerSettings sampleCtx bothDestinationsProps)).length ∧
    (SsmResult.policyDoc (ssmSessionManagerSettings sampleCtx noDestinationProps)).length =
      2 + (if noDestinationProps.sendToCloudWatchLogs then 2 else 0)
        + (if noDestinationProps.sendToS3 then 3 else 0) ∧
    (SsmResult.policyDoc (ssmSessionManagerSettings sampleCtx bothDestinationsProps)).length =
      2 + (if bothDestinationsProps.sendToCloudWatchLogs then 2 else 0)
        + (if bothDestinationsProps.sendToS3 then 3 else 0) :=
  policyDoc_length_monotone sampleCtx sampleCtx noDestinationProps bothDestinationsProps
    rfl rfl (fun h => by simp [noDestinationProps] at h) (fun h => by simp [noDestinationProps] at h)

/-- C6 counterexample: with the CloudWatch destination enabled, the agent policy
holds a `logs:DescribeLogGroups` statement whose resource is the account-wide
`log-group:*` ARN, which is not the created session-manager log group's ARN
pattern — so not every log-group statement is scoped to the created log
group. -/
theorem describeLogGroups_statement_not_scoped :
    List.any (SsmResult.policyDoc (ssmSessionManagerSettings sampleCtx cloudWatchOnlyProps))
        (fun s => s.actions == ["logs:DescribeLogGroups"] &&
          s.resources == ["arn:aws-cn:logs:cn-north-1:111122223333:log-group:*"]) = true ∧
    (("arn:aws-cn:logs:cn-north-1:111122223333:log-group:*" : String) ==
      "arn:aws-cn:logs:cn-north-1:111122223333:log-group:aws-accelerator-session-manager-logs:*")
      = false :=
  ⟨rfl, rfl⟩

/-- C6 (amended): with `sendToCloudWatchLogs = true`, the log-stream creation
and log-writing statement added to the agent policy is scoped to the created
session-manager log group's ARN, while the log-group description statement's
resource is the account-wide `log-group:*` pattern. -/
theorem cloudwatch_statement_scoping (ctx : StackContext)
    (props : SsmSessionManagerSettingsProps)
    (hok : (ssmSessionManagerSettings ctx props).errorMessage = none)
    (hcw : props.sendToCloudWatchLogs = true) :
    writeSessionManagerLogGroupStatement ctx
        ∈ SsmResult.policyDoc (ssmSessionManagerSettings ctx props) ∧
    (writeSessionManagerLogGroupStatement ctx).resources =
      ["arn:" ++ ctx.partition ++ ":logs:" ++ ctx.region ++ ":" ++ ctx.account
        ++ ":log-group:" ++ sessionManagerLogGroupFixedName ++ ":*"] ∧
    describeLogGroupsStatement ctx
        ∈ SsmResult.policyDoc (ssmSessionManagerSettings ctx props) ∧
    (describeLogGroupsStatement ctx).resources =
      ["arn:" ++ ctx.partition ++ ":logs:" ++ ctx.region ++ ":" ++ ctx.account
        ++ ":log-group:*"] := by
  unfold ssmSessionManagerSettings at hok ⊢
  cases herr : (props.sendToS3 && (!(truthy props.s3BucketKeyArn)
      || !(truthy props.s3BucketName))) with
  | true =>
    rw [herr] at hok
    simp [SsmResult.errorMessage] at hok
  | false =>
    refine ⟨?_, rfl, ?_, rfl⟩ <;> cases hs3 : props.sendToS3 <;>
      simp [hcw, hs3, SsmResult.policyDoc]

/-- C6 witness: the amended theorem at the CloudWatch-only configuration. -/
theorem cloudwatch_statement_scoping_witness :
    writeSessionManagerLogGroupStatement sampleCtx
        ∈ SsmResult.policyDoc (ssmSessionManagerSettings sampleCtx cloudWatchOnlyProps) ∧
    (writeSessionManagerLogGroupStatement sampleCtx).resources =
      ["arn:" ++ sampleCtx.partition ++ ":logs:" ++ sampleCtx.region ++ ":"
        ++ sampleCtx.account ++ ":log-group:" ++ sessionManagerLogGroupFixedName ++ ":*"] ∧
    describeLogGroupsStatement sampleCtx
        ∈ SsmResult.policyDoc (ssmSessionManagerSettings sampleCtx cloudWatchOnlyProps) ∧
    (describeLogGroupsStatement sampleCtx).resources =
      ["arn:" ++ sampleCtx.partition ++ ":logs:" ++ sampleCtx.region ++ ":"
        ++ sampleCtx.account ++ ":log-group:*"] :=
  cloudwatch_statement_scoping sampleCtx cloudWatchOnlyProps rfl rfl

/-- C9: when `sendToCloudWatchLogs = false` and assembly completes, the custom
setup action is still registered — exactly one custom resource, whose
`cloudWatchLogGroupName` property is the empty string (not absent and not a
log-group name). -/
theorem custom_resource_empty_logGroupName (ctx : StackContext)
    (props : SsmSessionManagerSettingsProps)
    (hok : (ssmSessionManagerSettings ctx props).errorMessage = none)
    (hcw : props.sendToCloudWatchLogs = false) :
    registeredCustomResourceProps (ssmSessionManagerSettings ctx props) =
      [{ s3BucketName := props.s3BucketName, s3KeyPrefix := props.s3KeyPrefix,
         s3EncryptionEnabled := props.sendToS3, cloudWatchLogGroupName := "",
         cloudWatchEncryptionEnabled := props.cloudWatchEncryptionEnabled,
         kmsKeyId := cdkTokenRef "SessionManagerSessionCmk" "keyId" }] := by
  unfold ssmSessionManagerSettings at hok ⊢
  cases herr : (props.sendToS3 && (!(truthy props.s3BucketKeyArn)
      || !(truthy props.s3BucketName))) with
  | true =>
    rw [herr] at hok
    simp [SsmResult.errorMessage] at hok
  | false =>
    simp [hcw, registeredCustomResourceProps, SsmResult.okResources,
      customResourceProperties, sessionManagerSessionCmkResource]

/-- C9 witness: the no-destination configuration registers the custom resource
with an empty `cloudWatchLogGroupName`. -/
theorem custom_resource_empty_logGroupName_witness :
    registeredCustomResourceProps (ssmSessionManagerSettings sampleCtx noDestinationProps) =
      [{ s3BucketName := none, s3KeyPrefix := none,
         s3EncryptionEnabled := false, cloudWatchLogGroupName := "",
         cloudWatchEncryptionEnabled := false,
         kmsKeyId := cdkTokenRef "SessionManagerSessionCmk" "keyId" }] :=
  custom_resource_empty_logGroupName sampleCtx noDestinationProps rfl rfl

/-- C10: with `sendToS3 = true` and both the bucket name and the bucket key ARN
present (truthy), the object-write statement lands in the agent policy and its
resource is `arn:<partition>:s3:::<bucket>/<s3KeyPrefix>/*` when the key prefix
is a non-empty string and `arn:<partition>:s3:::<bucket>/*` when it is absent or
the empty string. -/
theorem s3_put_object_statement_resource (ctx : StackContext)
    (props : SsmSessionManagerSettingsProps)
    (hs3 : props.sendToS3 = true)
    (hbucket : truthy props.s3BucketName = true)
    (hkey : truthy props.s3BucketKeyArn = true) :
    s3PutObjectStatement ctx props
        ∈ SsmResult.policyDoc (ssmSessionManagerSettings ctx props) ∧
    (s3PutObjectStatement ctx props).resources =
      [if truthy props.s3KeyPrefix then
         "arn:" ++ ctx.partition ++ ":s3:::" ++ (props.s3BucketName).getD "" ++ "/"
           ++ (props.s3KeyPrefix).getD "" ++ "/*"
       else
         "arn:" ++ ctx.partition ++ ":s3:::" ++ (props.s3BucketName).getD "" ++ "/*"] := by
  constructor
  · unfold ssmSessionManagerSettings
    cases hcw : props.sendToCloudWatchLogs <;>
      simp [hs3, hbucket, hkey, hcw, SsmResult.policyDoc]
  · cases hp : truthy props.s3KeyPrefix <;>
      simp [s3PutObjectStatement, hp, String.append_assoc]

/-- C10 witness: with bucket `central-logs` and prefix `session`, the
object-write resource is `arn:aws-cn:s3:::central-logs/session/*`. -/
theorem s3_put_object_statement_resource_witness :
    s3PutObjectStatement sampleCtx bothDestinationsProps
        ∈ SsmResult.policyDoc (ssmSessionManagerSettings sampleCtx bothDestinationsProps) ∧
    (s3PutObjectStatement sampleCtx bothDestinationsProps).resources =
      ["arn:aws-cn:s3:::central-logs/session/*"] := by
  have h := s3_put_object_statement_resource sampleCtx bothDestinationsProps rfl rfl rfl
  simpa [bothDestinationsProps, sampleCtx] using h

end KeyStackModel
